import Mathlib

/-!
# darkwindcraftbot: the Discord command handler of `src/main.go`

A shallow embedding of `main.go`: the handler `messageCreate`, the aggregator
`getServerInfo`, the fetcher `httpGET` and the configuration loader
`initEnvVars`.

Everything the program reaches outside its own code is a field of `World`:
the process environment, `net/http`, `encoding/json` and `strconv.FormatFloat`.
What the program does to the outside is recorded, in order, in a trace of
`Event`s, and a run ends either by returning or by a Go runtime panic.
-/

namespace DarkwindBot

/-! ## Data model (`main.go` lines 18-63) -/

/-- Go `[]byte`. -/
abbrev Bytes := List UInt8

/-- Go `float64`, kept as its IEEE-754 bit pattern: the program decodes and
prints such a value but never computes with it. -/
structure Float64 where
  bits : Nat
deriving DecidableEq, Repr

/-- The struct under `State.ResourceAttributes.Resources`. Go `int` is `Int`:
the only arithmetic on these fields is a division by a positive constant. -/
structure StateResources where
  MemoryBytes : Int
  CPU : Float64
  DiskBytes : Int
  NetworkRXBytes : Int
  NetworkTXBytes : Int
deriving DecidableEq, Repr

/-- The struct under `State.ResourceAttributes`. -/
structure StateAttributes where
  CurrentState : String
  IsSuspended : Bool
  Resources : StateResources
deriving DecidableEq, Repr

/-- Go `type State struct`. -/
structure State where
  ResourceAttributes : StateAttributes
deriving DecidableEq, Repr

/-- The struct under `Server.Attributes.Limits`; `IOWeight` is the Go field
with the JSON key `io`. -/
structure ServerLimits where
  Memory : Int
  Swap : Int
  Disk : Int
  IOWeight : Int
  CPU : Int
deriving DecidableEq, Repr

/-- The struct under `Server.Attributes.FeatureLimits`. -/
structure ServerFeatureLimits where
  Databases : Int
  Allocations : Int
  Backups : Int
deriving DecidableEq, Repr

/-- The struct under `Data[i].Attributes`; `Hostname` carries the JSON key
`ip_alias`. -/
structure AllocationAttributes where
  Hostname : String
  Port : Int
deriving DecidableEq, Repr

/-- One element of the slice `Server.Attributes.Relationships.Allocations.Data`. -/
structure Allocation where
  Attributes : AllocationAttributes
deriving DecidableEq, Repr

/-- The struct under `Server.Attributes.Relationships.Allocations`; a nil slice
and an empty slice are both the empty list. -/
structure ServerAllocations where
  Data : List Allocation
deriving DecidableEq, Repr

/-- The struct under `Server.Attributes.Relationships`. -/
structure ServerRelationships where
  Allocations : ServerAllocations
deriving DecidableEq, Repr

/-- The struct under `Server.Attributes`. -/
structure ServerAttributes where
  UUID : String
  Name : String
  Node : String
  Description : String
  Limits : ServerLimits
  FeatureLimits : ServerFeatureLimits
  Relationships : ServerRelationships
deriving DecidableEq, Repr

/-- Go `type Server struct`. -/
structure Server where
  Attributes : ServerAttributes
deriving DecidableEq, Repr

/-- The zero value of `State`, what `var State State` holds before decoding. -/
def State.zero : State :=
  ⟨⟨"", false, ⟨0, ⟨0⟩, 0, 0, 0⟩⟩⟩

/-- The zero value of `Server`, what `var Server Server` holds before decoding. -/
def Server.zero : Server :=
  ⟨⟨"", "", "", "", ⟨0, 0, 0, 0, 0⟩, ⟨0, 0, 0⟩, ⟨⟨[]⟩⟩⟩⟩

/-! ## Effects -/

/-- What a run does to the outside, in the order it happens. -/
inductive Event where
  /-- A call `log.Println(line)`; the timestamp prefix of the logger is left out. -/
  | logPrintln (line : String)
  /-- A call `client.Do(req)` for a `GET` of `url` with header `Authorization: authorization`. -/
  | clientDo (url : String) (authorization : String)
  /-- A call `s.ChannelMessageSend(channelID, content)`. -/
  | channelMessageSend (channelID : String) (content : String)
deriving DecidableEq, Repr

/-- How a Go function call ends: it returns a value, or a runtime panic unwinds it. -/
inductive Outcome (α : Type) where
  | ret (a : α)
  | panic (msg : String)
deriving DecidableEq, Repr

/-- The trace after a run, and how the run ended. -/
structure Run (α : Type) where
  trace : List Event
  out : Outcome α
deriving DecidableEq, Repr

/-- An effectful computation: from the trace so far to the trace after it. -/
def Prog (α : Type) : Type := List Event → Run α

/-- Sequencing: a panic in the first computation skips the second. -/
def Prog.bind {α β : Type} (p : Prog α) (f : α → Prog β) : Prog β := fun tr =>
  match p tr with
  | ⟨tr1, .ret a⟩ => f a tr1
  | ⟨tr1, .panic msg⟩ => ⟨tr1, .panic msg⟩

instance : Monad Prog where
  pure a := fun tr => ⟨tr, .ret a⟩
  bind := Prog.bind

/-- Append one event to the trace. -/
def emit (e : Event) : Prog Unit := fun tr => ⟨tr ++ [e], .ret ()⟩

/-- A Go runtime panic. -/
def goPanic {α : Type} (msg : String) : Prog α := fun tr => ⟨tr, .panic msg⟩

/-- The panic of dereferencing a nil pointer. -/
def nilDereference : String :=
  "runtime error: invalid memory address or nil pointer dereference"

/-- The panic of `xs[0]` on a slice of length 0. -/
def indexOutOfRange : String :=
  "runtime error: index out of range [0] with length 0"

/-- The body of an `*http.Response` as `ioutil.ReadAll(resp.Body)` delivers it:
the bytes read, and the read error if the stream broke. -/
structure Response where
  Body : Bytes
  readErr : Option String
deriving DecidableEq, Repr

/-- The libraries and the outside the program calls into.

* `Getenv name`: `os.Getenv`, the empty string for an unset variable.
* `NewRequest url`: the error of `http.NewRequest("GET", url, nil)`; `none`
  when the request is built, `some err` when the returned request is nil.
* `Do past url authorization`: the pair `(resp, err)` of `client.Do(req)`; the
  answer may depend on everything that happened before (`past`). A failed
  transport call is `(none, some err)`.
* `UnmarshalServer body`, `UnmarshalState body`: the record left in a
  zero-valued target by `json.Unmarshal(body, &target)`, and its error.
* `FormatFloat x`: `strconv.FormatFloat(x, 'f', 2, 64)`. -/
structure World where
  Getenv : String → String
  NewRequest : String → Option String
  Do : List Event → String → String → Option Response × Option String
  UnmarshalServer : Bytes → Server × Option String
  UnmarshalState : Bytes → State × Option String
  FormatFloat : Float64 → String

/-! ## Library functions with a fixed meaning -/

/-- Cut a list of characters at every occurrence of `sep`. -/
def splitChars (sep : Char) : List Char → List (List Char)
  | [] => [[]]
  | c :: cs =>
    if c = sep then [] :: splitChars sep cs
    else
      match splitChars sep cs with
      | [] => [[c]]
      | h :: t => (c :: h) :: t

/-- Go `strings.Split(s, sep)` for a separator of one character: the pieces
between the separators, so a string without separator, the empty one
included, gives a slice of length 1. -/
def Split (s : String) (sep : Char) : List String :=
  (splitChars sep s.data).map String.mk

/-- Go `strconv.Itoa`. -/
def Itoa (i : Int) : String :=
  if i < 0 then "-" ++ Nat.repr i.natAbs else Nat.repr i.natAbs

/-- Go `/` on `int`: the quotient truncated toward zero. -/
def goDiv (a b : Int) : Int := Int.tdiv a b

/-- A Go `map[string]string` as the list of its entries; `m[k]` is the empty
string for a missing key. -/
abbrev StringMap := List (String × String)

/-- The Go index expression `m[k]`. -/
def mapGet (m : StringMap) (k : String) : String :=
  (m.lookup k).getD ""

/-! ## The program -/

/-- The `*discordgo.User` fields the handler reads. -/
structure User where
  ID : String
deriving DecidableEq, Repr

/-- The `s.State` of a session: the bot's own user. -/
structure SessionState where
  User : User
deriving DecidableEq, Repr

/-- The `*discordgo.Session` fields the handler reads; the session knows its
own user (`s.State.User` is not nil). -/
structure Session where
  State : SessionState
deriving DecidableEq, Repr

/-- The `*discordgo.MessageCreate` fields the handler reads; the message
carries its author (`m.Author` is not nil). -/
structure MessageCreate where
  Author : User
  Content : String
  ChannelID : String
deriving DecidableEq, Repr

/-- Go `initEnvVars` (lines 66-83): the four named variables read from the
process environment into a map. -/
def initEnvVars (w : World) : StringMap :=
  ["API_URL", "API_KEY", "UUID_LIST", "DISCORD_TOKEN"].map fun env => (env, w.Getenv env)

/-- The statement `if err != nil` with the body `log.Println(err)`. -/
def logIfErr (err : Option String) : Prog Unit :=
  match err with
  | some e => emit (.logPrintln e)
  | none => pure ()

/-- The call `client.Do(req)`: it is recorded in the trace and answered by
the world, which sees the trace before the call. -/
def clientDo (w : World) (url : String) (authorization : String) :
    Prog (Option Response × Option String) := fun tr =>
  ⟨tr ++ [.clientDo url authorization], .ret (w.Do tr url authorization)⟩

/-- Go `httpGET` (lines 86-114). A nil `req` panics at `req.Header.Add`, a nil
`resp` panics at `defer resp.Body.Close()`, whose operand `resp.Body` is
evaluated when the `defer` statement runs. -/
def httpGET (w : World) (url : String) (key : String) : Prog Bytes := do
  let bearer := "Bearer " ++ key
  let reqErr := w.NewRequest url
  logIfErr reqErr
  match reqErr with
  | some _ => goPanic nilDereference
  | none =>
    let (resp, err) ← clientDo w url bearer
    logIfErr err
    match resp with
    | none => goPanic nilDereference
    | some r =>
      logIfErr r.readErr
      pure r.Body

/-- Go `getServerInfo` (lines 117-140): two fetches, each decoded into a fresh
record; a decode error is logged and the record is returned as the decoder
left it. -/
def getServerInfo (w : World) (envs : StringMap) (UUID : String) : Prog (Server × State) := do
  let serverJSON ← httpGET w (mapGet envs "API_URL" ++ "/api/client/servers/" ++ UUID)
    (mapGet envs "API_KEY")
  let (Server, err) := w.UnmarshalServer serverJSON
  logIfErr err
  let stateJSON ← httpGET w (mapGet envs "API_URL" ++ "/api/client/servers/" ++ UUID ++ "/resources")
    (mapGet envs "API_KEY")
  let (State, err) := w.UnmarshalState stateJSON
  logIfErr err
  pure (Server, State)

/-- The text of the status report, the second argument of
`s.ChannelMessageSend` at lines 164-173. `Data[0]` panics on an empty
allocation list, before anything is sent. -/
def statusText (w : World) (Server : Server) (State : State) : Outcome String :=
  match Server.Attributes.Relationships.Allocations.Data with
  | [] => .panic indexOutOfRange
  | Data0 :: _ =>
    .ret (">>> **" ++ Server.Attributes.Name ++ "** \n" ++
      "_" ++ Server.Attributes.Description ++ "_\n" ++
      "```\n" ++
      "Server: " ++ Data0.Attributes.Hostname ++ ":" ++ Itoa Data0.Attributes.Port ++ "\n" ++
      "Status: " ++ State.ResourceAttributes.CurrentState ++ "\n" ++
      "Resources:\n" ++
      " * CPU:  " ++ w.FormatFloat State.ResourceAttributes.Resources.CPU ++ "%\n" ++
      " * RAM:  " ++ Itoa (goDiv State.ResourceAttributes.Resources.MemoryBytes 1048576) ++ "MB/" ++
        Itoa Server.Attributes.Limits.Memory ++ "MB\n" ++
      " * DISK: " ++ Itoa (goDiv State.ResourceAttributes.Resources.DiskBytes 1048576) ++ "MB/" ++
        Itoa Server.Attributes.Limits.Disk ++ "MB\n" ++
      "```")

/-- Run a pure evaluation that may panic. -/
def evalOutcome {α : Type} (o : Outcome α) : Prog α := fun tr => ⟨tr, o⟩

/-- The loop `for i := range UUIDs` of lines 161-174: per UUID one
`getServerInfo` and one `ChannelMessageSend`. -/
def statusLoop (w : World) (envs : StringMap) (m : MessageCreate) : List String → Prog Unit
  | [] => pure ()
  | UUID :: rest => do
    let (Server, State) ← getServerInfo w envs UUID
    let text ← evalOutcome (statusText w Server State)
    emit (.channelMessageSend m.ChannelID text)
    statusLoop w envs m rest

/-- The first reply to `!map` (line 180). -/
def mapReply1 : String := "Vanilla Online Map - https://map.legacy.darkwindcraft.com"

/-- The second reply to `!map` (line 181). -/
def mapReply2 : String := "Legacy Online Map - https://map.vanilla.darkwindcraft.com"

/-- The reply to `!help` (lines 187-190). -/
def helpReply : String :=
  "_I'm a simple Discord bot that interacts with Darkwincraft Minecraft servers_\n" ++
  "```==== Commands ===\n" ++
  "!map    - Links to online Minecraft world maps\n" ++
  "!status - Real time server status```"

/-- The `if m.Content == "!status"` block (lines 159-175). -/
def statusBlock (w : World) (envs : StringMap) (UUIDs : List String) (s : Session)
    (m : MessageCreate) : Prog Unit :=
  if m.Content = "!status" then do
    emit (.logPrintln ("!status - " ++ s.State.User.ID))
    statusLoop w envs m UUIDs
  else pure ()

/-- The `if m.Content == "!map"` block (lines 178-182). -/
def mapBlock (s : Session) (m : MessageCreate) : Prog Unit :=
  if m.Content = "!map" then do
    emit (.logPrintln ("!map - " ++ s.State.User.ID))
    emit (.channelMessageSend m.ChannelID mapReply1)
    emit (.channelMessageSend m.ChannelID mapReply2)
  else pure ()

/-- The `if m.Content == "!help"` block (lines 185-191). -/
def helpBlock (s : Session) (m : MessageCreate) : Prog Unit :=
  if m.Content = "!help" then do
    emit (.logPrintln ("!help - " ++ s.State.User.ID))
    emit (.channelMessageSend m.ChannelID helpReply)
  else pure ()

/-- Go `messageCreate` (lines 144-192): the configuration is read and split
first, a message of the bot itself returns at once, then the three command
blocks run one after the other. -/
def messageCreate (w : World) (s : Session) (m : MessageCreate) : Prog Unit :=
  let envs := initEnvVars w
  let UUIDs := Split (mapGet envs "UUID_LIST") ','
  if m.Author.ID = s.State.User.ID then pure ()
  else do
    statusBlock w envs UUIDs s m
    mapBlock s m
    helpBlock s m

/-! ## Example worlds

Concrete worlds for the closed statements below: a panel at `http://panel`
with API key `secret`, serving the bodies defined here.
-/

/-- The bytes of an ASCII text. -/
def asciiBytes (s : String) : Bytes :=
  s.data.map fun c => UInt8.ofNat c.toNat

/-- A server document with one allocation. -/
def serverBodyA : Bytes := asciiBytes
  "\x7b\"attributes\":\x7b\"uuid\":\"A\",\"name\":\"Alpha\",\"description\":\"survival\",\"limits\":\x7b\"memory\":2048,\"disk\":10240\x7d,\"relationships\":\x7b\"allocations\":\x7b\"data\":[\x7b\"attributes\":\x7b\"ip_alias\":\"mc.example.org\",\"port\":25565\x7d\x7d]\x7d\x7d\x7d\x7d"

/-- The record `json.Unmarshal` decodes from `serverBodyA`. -/
def serverA : Server :=
  ⟨⟨"A", "Alpha", "", "survival", ⟨2048, 0, 10240, 0, 0⟩, ⟨0, 0, 0⟩,
    ⟨⟨[⟨⟨"mc.example.org", 25565⟩⟩]⟩⟩⟩⟩

/-- A resources document. -/
def stateBodyA : Bytes := asciiBytes
  "\x7b\"attributes\":\x7b\"current_state\":\"running\",\"is_suspended\":false,\"resources\":\x7b\"memory_bytes\":1500000,\"cpu_absolute\":0,\"disk_bytes\":3145728\x7d\x7d\x7d"

/-- The record `json.Unmarshal` decodes from `stateBodyA`. -/
def stateA : State :=
  ⟨⟨"running", false, ⟨1500000, ⟨0⟩, 3145728, 0, 0⟩⟩⟩

/-- A second server document with one allocation. -/
def serverBodyB : Bytes := asciiBytes
  "\x7b\"attributes\":\x7b\"uuid\":\"B\",\"name\":\"Beta\",\"description\":\"creative\",\"limits\":\x7b\"memory\":4096,\"disk\":20480\x7d,\"relationships\":\x7b\"allocations\":\x7b\"data\":[\x7b\"attributes\":\x7b\"ip_alias\":\"mc.example.org\",\"port\":25566\x7d\x7d]\x7d\x7d\x7d\x7d"

/-- The record `json.Unmarshal` decodes from `serverBodyB`. -/
def serverB : Server :=
  ⟨⟨"B", "Beta", "", "creative", ⟨4096, 0, 20480, 0, 0⟩, ⟨0, 0, 0⟩,
    ⟨⟨[⟨⟨"mc.example.org", 25566⟩⟩]⟩⟩⟩⟩

/-- A well-formed server document whose allocation list is empty. -/
def serverBodyNoAllocation : Bytes := asciiBytes
  "\x7b\"attributes\":\x7b\"uuid\":\"C\",\"name\":\"Gamma\",\"relationships\":\x7b\"allocations\":\x7b\"data\":[]\x7d\x7d\x7d\x7d"

/-- The record `json.Unmarshal` decodes from `serverBodyNoAllocation`. -/
def serverNoAllocation : Server :=
  ⟨⟨"C", "Gamma", "", "", ⟨0, 0, 0, 0, 0⟩, ⟨0, 0, 0⟩, ⟨⟨[]⟩⟩⟩⟩

/-- A body that is not JSON. -/
def malformedBody : Bytes := asciiBytes "not json"

/-- The syntax error of `json.Unmarshal` on `malformedBody`. -/
def malformedErr : String := "invalid character 'o' in literal null (expecting 'u')"

/-- The syntax error of `json.Unmarshal` on an empty body. -/
def emptyErr : String := "unexpected end of JSON input"

/-- The answers of `json.Unmarshal(body, &Server)` on the bodies of the
example worlds. A syntax error leaves the target untouched, so zero. The
example worlds serve no body outside this table; the last line only makes
the function total. -/
def exampleUnmarshalServer (body : Bytes) : Server × Option String :=
  if body = serverBodyA then (serverA, none)
  else if body = serverBodyB then (serverB, none)
  else if body = serverBodyNoAllocation then (serverNoAllocation, none)
  else if body = [] then (Server.zero, some emptyErr)
  else (Server.zero, some malformedErr)

/-- The answers of `json.Unmarshal(body, &State)` on the bodies of the example
worlds, as for `exampleUnmarshalServer`. -/
def exampleUnmarshalState (body : Bytes) : State × Option String :=
  if body = stateBodyA then (stateA, none)
  else if body = [] then (State.zero, some emptyErr)
  else (State.zero, some malformedErr)

/-- The decimal digit `d < 10` as a string. -/
def digitString (d : Nat) : String := String.singleton (Nat.digitChar d)

/-- Go `strconv.FormatFloat(x, 'f', 2, 64)` on the bit pattern of `x`: the
exact value rounded to hundredths, ties to even. -/
def exampleFormatFloat (x : Float64) : String :=
  let sign : Nat := x.bits / 2 ^ 63 % 2
  let expField : Nat := x.bits / 2 ^ 52 % 2 ^ 11
  let frac : Nat := x.bits % 2 ^ 52
  if expField = 2047 then
    if frac ≠ 0 then "NaN" else if sign = 1 then "-Inf" else "+Inf"
  else
    let mant : Nat := if expField = 0 then frac else frac + 2 ^ 52
    let exp : Int := if expField = 0 then -1074 else (expField : Int) - 1075
    let num := mant * 100 * 2 ^ exp.toNat
    let den := 2 ^ (-exp).toNat
    let q := num / den
    let r := num % den
    let n := if den < 2 * r ∨ (2 * r = den ∧ q % 2 = 1) then q + 1 else q
    (if sign = 1 then "-" else "") ++ Nat.repr (n / 100) ++ "." ++
      digitString (n % 100 / 10) ++ digitString (n % 10)

/-- The world of a panel at `http://panel`: the environment holds `uuidList`
in `UUID_LIST`, every URL parses, and `remote` answers each request by its URL. -/
def exampleWorld (uuidList : String) (remote : String → Option Response × Option String) :
    World where
  Getenv name :=
    if name = "API_URL" then "http://panel"
    else if name = "API_KEY" then "secret"
    else if name = "UUID_LIST" then uuidList
    else if name = "DISCORD_TOKEN" then "token"
    else ""
  NewRequest _ := none
  Do _ url _ := remote url
  UnmarshalServer := exampleUnmarshalServer
  UnmarshalState := exampleUnmarshalState
  FormatFloat := exampleFormatFloat

/-- The bot's session in the examples: its own user is `bot`. -/
def exampleSession : Session := ⟨⟨⟨"bot"⟩⟩⟩

/-- A message of user `alice` in channel `general`. -/
def messageFromAlice (content : String) : MessageCreate := ⟨⟨"alice"⟩, content, "general"⟩

/-- A message of the bot itself in channel `general`. -/
def messageFromBot (content : String) : MessageCreate := ⟨⟨"bot"⟩, content, "general"⟩

/-- A remote that serves `A` in full and answers every other URL with 404 and
an empty body. -/
def remoteA (url : String) : Option Response × Option String :=
  if url = "http://panel/api/client/servers/A" then (some ⟨serverBodyA, none⟩, none)
  else if url = "http://panel/api/client/servers/A/resources" then (some ⟨stateBodyA, none⟩, none)
  else (some ⟨[], none⟩, none)

/-- A remote that serves `A` and `B` in full. -/
def remoteAB (url : String) : Option Response × Option String :=
  if url = "http://panel/api/client/servers/A" then (some ⟨serverBodyA, none⟩, none)
  else if url = "http://panel/api/client/servers/A/resources" then (some ⟨stateBodyA, none⟩, none)
  else if url = "http://panel/api/client/servers/B" then (some ⟨serverBodyB, none⟩, none)
  else if url = "http://panel/api/client/servers/B/resources" then (some ⟨stateBodyA, none⟩, none)
  else (some ⟨[], none⟩, none)

/-- A remote that serves `A` in full and answers both requests for `B` with a
body that is not JSON. -/
def remoteMalformedB (url : String) : Option Response × Option String :=
  if url = "http://panel/api/client/servers/A" then (some ⟨serverBodyA, none⟩, none)
  else if url = "http://panel/api/client/servers/A/resources" then (some ⟨stateBodyA, none⟩, none)
  else if url = "http://panel/api/client/servers/B" then (some ⟨malformedBody, none⟩, none)
  else if url = "http://panel/api/client/servers/B/resources" then
    (some ⟨malformedBody, none⟩, none)
  else (some ⟨[], none⟩, none)

/-- A remote that serves the server document of `A` and answers the resources
request of `A` with a body that is not JSON. -/
def remoteMalformedState (url : String) : Option Response × Option String :=
  if url = "http://panel/api/client/servers/A" then (some ⟨serverBodyA, none⟩, none)
  else if url = "http://panel/api/client/servers/A/resources" then
    (some ⟨malformedBody, none⟩, none)
  else (some ⟨[], none⟩, none)

/-- A remote whose server `C` has a well-formed document without allocation. -/
def remoteNoAllocation (url : String) : Option Response × Option String :=
  if url = "http://panel/api/client/servers/C" then (some ⟨serverBodyNoAllocation, none⟩, none)
  else if url = "http://panel/api/client/servers/C/resources" then (some ⟨stateBodyA, none⟩, none)
  else (some ⟨[], none⟩, none)

/-- The error of a transport call to a panel that is down. -/
def refusedErr : String :=
  "Get \"http://panel/api/client/servers/A\": dial tcp 10.0.0.1:80: connect: connection refused"

/-- A remote that is down: every transport call fails, without a response. -/
def remoteDown (_url : String) : Option Response × Option String :=
  (none, some refusedErr)

/-! ## Reading a trace -/

/-- The fetches of a trace, in order. -/
def fetches (tr : List Event) : List Event :=
  tr.filter fun e =>
    match e with
    | .clientDo _ _ => true
    | _ => false

/-- The log lines `logIfErr` writes. -/
def errLines (err : Option String) : List Event :=
  match err with
  | some e => [.logPrintln e]
  | none => []

/-- The two fetches `getServerInfo` issues for one UUID. -/
def fetchPair (w : World) (UUID : String) : List Event :=
  [.clientDo (w.Getenv "API_URL" ++ "/api/client/servers/" ++ UUID) ("Bearer " ++ w.Getenv "API_KEY"),
   .clientDo (w.Getenv "API_URL" ++ "/api/client/servers/" ++ UUID ++ "/resources")
     ("Bearer " ++ w.Getenv "API_KEY")]

/-- The status report of `serverA` with `stateA`. -/
def reportA : String :=
  ">>> **Alpha** \n_survival_\n```\nServer: mc.example.org:25565\nStatus: running\n" ++
  "Resources:\n * CPU:  0.00%\n * RAM:  1MB/2048MB\n * DISK: 3MB/10240MB\n```"

/-- A computation only appends to the trace. -/
def Grows {α : Type} (p : Prog α) : Prop :=
  ∀ tr, ∃ more, (p tr).trace = tr ++ more

set_option maxRecDepth 100000
set_option exponentiation.threshold 2000

/-! ## Basic facts about runs -/

@[simp] theorem pure_run {α : Type} (a : α) (tr : List Event) :
    (pure a : Prog α) tr = ⟨tr, .ret a⟩ := rfl

@[simp] theorem bind_run {α β : Type} (p : Prog α) (f : α → Prog β) (tr : List Event) :
    (p >>= f) tr = Prog.bind p f tr := rfl

@[simp] theorem emit_run (e : Event) (tr : List Event) :
    emit e tr = ⟨tr ++ [e], .ret ()⟩ := rfl

@[simp] theorem goPanic_run {α : Type} (msg : String) (tr : List Event) :
    (goPanic msg : Prog α) tr = ⟨tr, .panic msg⟩ := rfl

theorem bind_ret {α β : Type} (p : Prog α) (f : α → Prog β) (tr tr1 : List Event) (a : α)
    (h : p tr = ⟨tr1, .ret a⟩) : Prog.bind p f tr = f a tr1 := by
  simp [Prog.bind, h]

@[simp] theorem logIfErr_run (err : Option String) (tr : List Event) :
    logIfErr err tr = ⟨tr ++ errLines err, .ret ()⟩ := by
  cases err <;> simp [logIfErr, errLines]

@[simp] theorem clientDo_run (w : World) (url auth : String) (tr : List Event) :
    clientDo w url auth tr = ⟨tr ++ [.clientDo url auth], .ret (w.Do tr url auth)⟩ := rfl

@[simp] theorem evalOutcome_run {α : Type} (o : Outcome α) (tr : List Event) :
    evalOutcome o tr = ⟨tr, o⟩ := rfl

@[simp] theorem fetches_append (a b : List Event) : fetches (a ++ b) = fetches a ++ fetches b := by
  simp [fetches]

@[simp] theorem fetches_nil : fetches [] = [] := rfl

@[simp] theorem fetches_cons_clientDo (url auth : String) (tr : List Event) :
    fetches (.clientDo url auth :: tr) = .clientDo url auth :: fetches tr := by
  simp [fetches]

@[simp] theorem fetches_cons_logPrintln (line : String) (tr : List Event) :
    fetches (.logPrintln line :: tr) = fetches tr := by
  simp [fetches]

@[simp] theorem fetches_cons_channelMessageSend (c t : String) (tr : List Event) :
    fetches (.channelMessageSend c t :: tr) = fetches tr := by
  simp [fetches]

@[simp] theorem fetches_errLines (err : Option String) : fetches (errLines err) = [] := by
  cases err <;> simp [errLines]

theorem mapGet_API_URL (w : World) : mapGet (initEnvVars w) "API_URL" = w.Getenv "API_URL" := by
  simp [mapGet, initEnvVars, List.lookup]

theorem mapGet_API_KEY (w : World) : mapGet (initEnvVars w) "API_KEY" = w.Getenv "API_KEY" := by
  simp [mapGet, initEnvVars, List.lookup]

theorem mapGet_UUID_LIST (w : World) : mapGet (initEnvVars w) "UUID_LIST" = w.Getenv "UUID_LIST" := by
  simp [mapGet, initEnvVars, List.lookup]

/-- A fetch whose request is built and answered with a response returns the body read. -/
theorem httpGET_response (w : World) (url key : String) (tr : List Event) (r : Response)
    (err : Option String) (hreq : w.NewRequest url = none)
    (hdo : w.Do tr url ("Bearer " ++ key) = (some r, err)) :
    httpGET w url key tr =
      ⟨tr ++ [.clientDo url ("Bearer " ++ key)] ++ errLines err ++ errLines r.readErr,
        .ret r.Body⟩ := by
  simp [httpGET, Prog.bind, hreq, hdo, errLines]

/-- A fetch whose transport call fails logs the error and panics. -/
theorem httpGET_transport_failure (w : World) (url key : String) (tr : List Event)
    (err : String) (hreq : w.NewRequest url = none)
    (hdo : w.Do tr url ("Bearer " ++ key) = (none, some err)) :
    httpGET w url key tr =
      ⟨tr ++ [.clientDo url ("Bearer " ++ key), .logPrintln err], .panic nilDereference⟩ := by
  simp [httpGET, Prog.bind, hreq, hdo, errLines]

/-- When both fetches are answered with a response, `getServerInfo` returns the
two records as the decoder left them, whether or not the decoder reported an
error. -/
theorem getServerInfo_response (w : World) (envs : StringMap) (UUID : String) (tr : List Event)
    (r1 r2 : Response) (e1 e2 : Option String)
    (hreq1 : w.NewRequest (mapGet envs "API_URL" ++ "/api/client/servers/" ++ UUID) = none)
    (hdo1 : w.Do tr (mapGet envs "API_URL" ++ "/api/client/servers/" ++ UUID)
      ("Bearer " ++ mapGet envs "API_KEY") = (some r1, e1))
    (hreq2 : w.NewRequest (mapGet envs "API_URL" ++ "/api/client/servers/" ++ UUID ++ "/resources")
      = none)
    (hdo2 : w.Do
      (tr ++ [.clientDo (mapGet envs "API_URL" ++ "/api/client/servers/" ++ UUID)
          ("Bearer " ++ mapGet envs "API_KEY")] ++ errLines e1 ++ errLines r1.readErr ++
        errLines (w.UnmarshalServer r1.Body).2)
      (mapGet envs "API_URL" ++ "/api/client/servers/" ++ UUID ++ "/resources")
      ("Bearer " ++ mapGet envs "API_KEY") = (some r2, e2)) :
    getServerInfo w envs UUID tr =
      ⟨tr ++ [.clientDo (mapGet envs "API_URL" ++ "/api/client/servers/" ++ UUID)
          ("Bearer " ++ mapGet envs "API_KEY")] ++ errLines e1 ++ errLines r1.readErr ++
        errLines (w.UnmarshalServer r1.Body).2 ++
        [.clientDo (mapGet envs "API_URL" ++ "/api/client/servers/" ++ UUID ++ "/resources")
          ("Bearer " ++ mapGet envs "API_KEY")] ++ errLines e2 ++ errLines r2.readErr ++
        errLines (w.UnmarshalState r2.Body).2,
        .ret ((w.UnmarshalServer r1.Body).1, (w.UnmarshalState r2.Body).1)⟩ := by
  unfold getServerInfo
  simp only [bind_run]
  rw [bind_ret _ _ _ _ _ (httpGET_response w _ _ tr r1 e1 hreq1 hdo1)]
  simp only [bind_run, Prog.bind, logIfErr_run]
  rw [httpGET_response w _ _ _ r2 e2 hreq2 hdo2]
  simp

theorem statusBlock_skip (w : World) (envs : StringMap) (UUIDs : List String) (s : Session)
    (m : MessageCreate) (h : m.Content ≠ "!status") (tr : List Event) :
    statusBlock w envs UUIDs s m tr = ⟨tr, .ret ()⟩ := by
  simp [statusBlock, h]

theorem mapBlock_skip (s : Session) (m : MessageCreate) (h : m.Content ≠ "!map")
    (tr : List Event) : mapBlock s m tr = ⟨tr, .ret ()⟩ := by
  simp [mapBlock, h]

theorem helpBlock_skip (s : Session) (m : MessageCreate) (h : m.Content ≠ "!help")
    (tr : List Event) : helpBlock s m tr = ⟨tr, .ret ()⟩ := by
  simp [helpBlock, h]

theorem messageCreate_nonself (w : World) (s : Session) (m : MessageCreate)
    (hself : m.Author.ID ≠ s.State.User.ID) (tr : List Event) :
    messageCreate w s m tr =
      Prog.bind (statusBlock w (initEnvVars w) (Split (mapGet (initEnvVars w) "UUID_LIST") ',') s m)
        (fun _ => Prog.bind (mapBlock s m) (fun _ => helpBlock s m)) tr := by
  simp [messageCreate, hself]
  rfl


theorem statusText_of_allocation (w : World) (srv : Server) (st : State)
    (h : srv.Attributes.Relationships.Allocations.Data ≠ []) :
    ∃ text, statusText w srv st = .ret text := by
  unfold statusText
  cases hd : srv.Attributes.Relationships.Allocations.Data with
  | nil => exact absurd hd h
  | cons a rest => exact ⟨_, rfl⟩

theorem statusLoop_fetches (w : World) (m : MessageCreate) (UUIDs : List String)
    (hserver : ∀ UUID ∈ UUIDs,
      w.NewRequest (w.Getenv "API_URL" ++ "/api/client/servers/" ++ UUID) = none ∧
      ∀ past, ∃ r err,
        w.Do past (w.Getenv "API_URL" ++ "/api/client/servers/" ++ UUID)
          ("Bearer " ++ w.Getenv "API_KEY") = (some r, err) ∧
        (w.UnmarshalServer r.Body).1.Attributes.Relationships.Allocations.Data ≠ [])
    (hresources : ∀ UUID ∈ UUIDs,
      w.NewRequest (w.Getenv "API_URL" ++ "/api/client/servers/" ++ UUID ++ "/resources") = none ∧
      ∀ past, ∃ r err,
        w.Do past (w.Getenv "API_URL" ++ "/api/client/servers/" ++ UUID ++ "/resources")
          ("Bearer " ++ w.Getenv "API_KEY") = (some r, err))
    (tr : List Event) :
    (statusLoop w (initEnvVars w) m UUIDs tr).out = .ret () ∧
    fetches (statusLoop w (initEnvVars w) m UUIDs tr).trace =
      fetches tr ++ UUIDs.flatMap (fetchPair w) := by
  induction UUIDs generalizing tr with
  | nil => simp [statusLoop]
  | cons UUID rest ih =>
    have hs := hserver UUID (List.mem_cons_self _ _)
    have hr := hresources UUID (List.mem_cons_self _ _)
    obtain ⟨r1, e1, hdo1, halloc⟩ := hs.2 tr
    obtain ⟨r2, e2, hdo2⟩ := hr.2
      (tr ++ [.clientDo (w.Getenv "API_URL" ++ "/api/client/servers/" ++ UUID)
          ("Bearer " ++ w.Getenv "API_KEY")] ++ errLines e1 ++ errLines r1.readErr ++
        errLines (w.UnmarshalServer r1.Body).2)
    obtain ⟨text, htext⟩ := statusText_of_allocation w (w.UnmarshalServer r1.Body).1
      (w.UnmarshalState r2.Body).1 halloc
    have hget := getServerInfo_response w (initEnvVars w) UUID tr r1 r2 e1 e2
      (by rw [mapGet_API_URL]; exact hs.1)
      (by rw [mapGet_API_URL, mapGet_API_KEY]; exact hdo1)
      (by rw [mapGet_API_URL]; exact hr.1)
      (by rw [mapGet_API_URL, mapGet_API_KEY]; exact hdo2)
    rw [mapGet_API_URL, mapGet_API_KEY] at hget
    have ih' := ih (fun u hu => hserver u (List.mem_cons_of_mem _ hu))
      (fun u hu => hresources u (List.mem_cons_of_mem _ hu))
    simp only [statusLoop, bind_run]
    rw [bind_ret _ _ _ _ _ hget]
    simp only [bind_run, Prog.bind, evalOutcome_run, htext, emit_run]
    refine ⟨(ih' _).1, ?_⟩
    rw [(ih' _).2]
    simp [fetchPair, List.flatMap_cons]

theorem length_flatMap_fetchPair (w : World) (UUIDs : List String) :
    (UUIDs.flatMap (fetchPair w)).length = 2 * UUIDs.length := by
  induction UUIDs with
  | nil => rfl
  | cons u rest ih => simp [List.flatMap_cons, ih, fetchPair]; ring



/-- Truncating division by 1048576 drops a remainder that has the sign of the
quotient. -/
theorem goDiv_mebibyte (k r : Int)
    (h : (0 ≤ k ∧ 0 ≤ r ∧ r < 1048576) ∨ (k ≤ 0 ∧ -1048576 < r ∧ r ≤ 0)) :
    goDiv (1048576 * k + r) 1048576 = k := by
  unfold goDiv
  rcases h with ⟨hk, hr0, hr1⟩ | ⟨hk, hr0, hr1⟩
  · rw [Int.tdiv_eq_ediv (by omega) (by decide)]
    omega
  · have hneg : 1048576 * k + r = -(1048576 * (-k) + (-r)) := by ring
    rw [hneg, Int.neg_tdiv, Int.tdiv_eq_ediv (by omega) (by decide)]
    omega

/-- An empty allocation list makes the report expression panic. -/
theorem statusText_no_allocation (w : World) (srv : Server) (st : State)
    (h : srv.Attributes.Relationships.Allocations.Data = []) :
    statusText w srv st = .panic indexOutOfRange := by
  simp [statusText, h]

/-- One round of the status loop: when `getServerInfo` returns and the report
is rendered, the report is sent and the loop goes on. -/
theorem statusLoop_cons (w : World) (envs : StringMap) (m : MessageCreate) (UUID : String)
    (rest : List String) (tr tr1 : List Event) (srv : Server) (st : State) (text : String)
    (hget : getServerInfo w envs UUID tr = ⟨tr1, .ret (srv, st)⟩)
    (htext : statusText w srv st = .ret text) :
    statusLoop w envs m (UUID :: rest) tr =
      statusLoop w envs m rest (tr1 ++ [.channelMessageSend m.ChannelID text]) := by
  simp only [statusLoop, bind_run]
  rw [bind_ret _ _ _ _ _ hget]
  simp only [bind_run, Prog.bind, evalOutcome_run, htext, emit_run]

/-- Returning a value leaves the trace as it is. -/
theorem grows_pure {α : Type} (a : α) : Grows (pure a : Prog α) :=
  fun tr => ⟨[], by simp⟩

theorem grows_emit (e : Event) : Grows (emit e) :=
  fun tr => ⟨[e], by simp⟩

theorem grows_goPanic {α : Type} (msg : String) : Grows (goPanic msg : Prog α) :=
  fun tr => ⟨[], by simp⟩

theorem grows_evalOutcome {α : Type} (o : Outcome α) : Grows (evalOutcome o) :=
  fun tr => ⟨[], by simp⟩

theorem grows_logIfErr (err : Option String) : Grows (logIfErr err) :=
  fun tr => ⟨errLines err, by simp⟩

theorem grows_clientDo (w : World) (url auth : String) : Grows (clientDo w url auth) :=
  fun tr => ⟨[.clientDo url auth], by simp⟩

theorem grows_bind {α β : Type} {p : Prog α} {f : α → Prog β} (hp : Grows p)
    (hf : ∀ a, Grows (f a)) : Grows (p >>= f) := by
  intro tr
  obtain ⟨more, hmore⟩ := hp tr
  simp only [bind_run, Prog.bind]
  cases hrun : p tr with
  | mk tr1 o =>
    rw [hrun] at hmore
    simp only at hmore
    cases o with
    | ret a =>
      obtain ⟨more2, hmore2⟩ := hf a tr1
      subst hmore
      exact ⟨more ++ more2, by rw [hmore2]; simp⟩
    | panic msg => exact ⟨more, by simp [hmore]⟩

theorem grows_httpGET (w : World) (url key : String) : Grows (httpGET w url key) := by
  unfold httpGET
  refine grows_bind (grows_logIfErr _) fun _ => ?_
  cases w.NewRequest url with
  | some e => exact grows_goPanic _
  | none =>
    refine grows_bind (grows_clientDo _ _ _) fun p => grows_bind (grows_logIfErr _) fun _ => ?_
    cases p.1 with
    | none => exact grows_goPanic _
    | some r => exact grows_bind (grows_logIfErr _) fun _ => grows_pure _

theorem grows_getServerInfo (w : World) (envs : StringMap) (UUID : String) :
    Grows (getServerInfo w envs UUID) := by
  unfold getServerInfo
  exact grows_bind (grows_httpGET _ _ _) fun _ => grows_bind (grows_logIfErr _) fun _ =>
    grows_bind (grows_httpGET _ _ _) fun _ => grows_bind (grows_logIfErr _) fun _ => grows_pure _

theorem grows_statusLoop (w : World) (envs : StringMap) (m : MessageCreate)
    (UUIDs : List String) : Grows (statusLoop w envs m UUIDs) := by
  induction UUIDs with
  | nil => exact grows_pure _
  | cons UUID rest ih =>
    unfold statusLoop
    exact grows_bind (grows_getServerInfo _ _ _) fun _ =>
      grows_bind (grows_evalOutcome _) fun _ => grows_bind (grows_emit _) fun _ => ih

theorem grows_mapBlock (s : Session) (m : MessageCreate) : Grows (mapBlock s m) := by
  unfold mapBlock
  split
  · exact grows_bind (grows_emit _) fun _ => grows_bind (grows_emit _) fun _ => grows_emit _
  · exact grows_pure _

theorem grows_helpBlock (s : Session) (m : MessageCreate) : Grows (helpBlock s m) := by
  unfold helpBlock
  split
  · exact grows_bind (grows_emit _) fun _ => grows_emit _
  · exact grows_pure _

/-- What the first fetch of a run leaves behind: the fetch is in the trace, or
the run ended in a nil dereference. -/
theorem fetched_or_panicked_bind {α β : Type} (e : Event) (p : Prog α) (f : α → Prog β)
    (tr : List Event) (hf : ∀ a, Grows (f a))
    (hp : e ∈ (p tr).trace ∨ (p tr).out = .panic nilDereference) :
    e ∈ (Prog.bind p f tr).trace ∨ (Prog.bind p f tr).out = .panic nilDereference := by
  unfold Prog.bind
  cases hrun : p tr with
  | mk tr1 o =>
    rw [hrun] at hp
    cases o with
    | ret a =>
      obtain ⟨more, hmore⟩ := hf a tr1
      rcases hp with hmem | hout
      · left
        simp only at hmem ⊢
        rw [hmore]
        exact List.mem_append_left _ hmem
      · simp at hout
    | panic msg => simpa using hp

theorem httpGET_fetched_or_panicked (w : World) (url key : String) (tr : List Event) :
    .clientDo url ("Bearer " ++ key) ∈ (httpGET w url key tr).trace ∨
      (httpGET w url key tr).out = .panic nilDereference := by
  unfold httpGET
  simp only [bind_run, Prog.bind, logIfErr_run]
  cases w.NewRequest url with
  | some e => right; simp
  | none =>
    left
    simp only [clientDo_run, errLines, List.append_nil]
    cases hdo : w.Do tr url ("Bearer " ++ key) with
    | mk resp err =>
      cases resp with
      | none => simp [Prog.bind, hdo]
      | some r => simp [Prog.bind, hdo]

/-- With an empty `UUID_LIST` the status loop still runs once, for the empty
UUID: the run issues a fetch or panics. -/
theorem status_empty_list_fetches_or_panics (w : World) (s : Session) (m : MessageCreate)
    (hself : m.Author.ID ≠ s.State.User.ID) (hstatus : m.Content = "!status")
    (hempty : w.Getenv "UUID_LIST" = "") (tr : List Event) :
    .clientDo (w.Getenv "API_URL" ++ "/api/client/servers/") ("Bearer " ++ w.Getenv "API_KEY")
        ∈ (messageCreate w s m tr).trace ∨
      (messageCreate w s m tr).out = .panic nilDereference := by
  rw [messageCreate_nonself w s m hself, mapGet_UUID_LIST, hempty]
  have hsplit : Split "" ',' = [""] := by decide
  rw [hsplit]
  refine fetched_or_panicked_bind _ _ _ _
    (fun _ => grows_bind (grows_mapBlock _ _) fun _ => grows_helpBlock _ _) ?_
  simp only [statusBlock, hstatus, if_true, bind_run]
  rw [bind_ret _ _ _ _ _ (emit_run _ _)]
  simp only [statusLoop, bind_run]
  refine fetched_or_panicked_bind _ _ _ _
    (fun _ => grows_bind (grows_evalOutcome _) fun _ =>
      grows_bind (grows_emit _) fun _ => grows_pure _) ?_
  simp only [getServerInfo, bind_run]
  refine fetched_or_panicked_bind _ _ _ _
    (fun _ => grows_bind (grows_logIfErr _) fun _ =>
      grows_bind (grows_httpGET _ _ _) fun _ => grows_bind (grows_logIfErr _) fun _ =>
        grows_pure _) ?_
  have h := httpGET_fetched_or_panicked w (w.Getenv "API_URL" ++ "/api/client/servers/")
    (w.Getenv "API_KEY") (tr ++ [.logPrintln ("!status - " ++ s.State.User.ID)])
  simpa [mapGet_API_URL, mapGet_API_KEY] using h

/-! ## The claims -/

/-- C1: a message of another user whose content is none of `!status`, `!map`
and `!help` makes `messageCreate` return normally with the trace as it was:
no reply, no fetch, no log line, no panic, in every world. -/
theorem messageCreate_unmatched_does_nothing (w : World) (s : Session) (m : MessageCreate)
    (hself : m.Author.ID ≠ s.State.User.ID)
    (hstatus : m.Content ≠ "!status") (hmap : m.Content ≠ "!map")
    (hhelp : m.Content ≠ "!help") (tr : List Event) :
    messageCreate w s m tr = ⟨tr, .ret ()⟩ := by
  rw [messageCreate_nonself w s m hself]
  simp [Prog.bind, statusBlock_skip, mapBlock_skip, helpBlock_skip, hstatus, hmap, hhelp]

/-- C1 at `!status please`, ` !status`, `!STATUS` and the empty content, sent
by `alice` to a bot configured with the servers `A` and `B`. -/
theorem messageCreate_unmatched_does_nothing_witness :
    messageCreate (exampleWorld "A,B" remoteAB) exampleSession
        (messageFromAlice "!status please") [] = ⟨[], .ret ()⟩ ∧
    messageCreate (exampleWorld "A,B" remoteAB) exampleSession
        (messageFromAlice " !status") [] = ⟨[], .ret ()⟩ ∧
    messageCreate (exampleWorld "A,B" remoteAB) exampleSession
        (messageFromAlice "!STATUS") [] = ⟨[], .ret ()⟩ ∧
    messageCreate (exampleWorld "A,B" remoteAB) exampleSession
        (messageFromAlice "") [] = ⟨[], .ret ()⟩ :=
  ⟨messageCreate_unmatched_does_nothing _ _ _ (by decide) (by decide) (by decide) (by decide) [],
   messageCreate_unmatched_does_nothing _ _ _ (by decide) (by decide) (by decide) (by decide) [],
   messageCreate_unmatched_does_nothing _ _ _ (by decide) (by decide) (by decide) (by decide) [],
   messageCreate_unmatched_does_nothing _ _ _ (by decide) (by decide) (by decide) (by decide) []⟩

/-- C2: a message whose author is the bot's own user makes `messageCreate`
return normally with the trace as it was, for every content and every world:
no reply and no fetch. -/
theorem messageCreate_self_does_nothing (w : World) (s : Session) (m : MessageCreate)
    (hself : m.Author.ID = s.State.User.ID) (tr : List Event) :
    messageCreate w s m tr = ⟨tr, .ret ()⟩ := by
  simp [messageCreate, hself]

/-- C2 at the bot's own `!status`, `!map` and `!help`. -/
theorem messageCreate_self_does_nothing_witness :
    messageCreate (exampleWorld "A,B" remoteAB) exampleSession
        (messageFromBot "!status") [] = ⟨[], .ret ()⟩ ∧
    messageCreate (exampleWorld "A,B" remoteAB) exampleSession
        (messageFromBot "!map") [] = ⟨[], .ret ()⟩ ∧
    messageCreate (exampleWorld "A,B" remoteAB) exampleSession
        (messageFromBot "!help") [] = ⟨[], .ret ()⟩ :=
  ⟨messageCreate_self_does_nothing _ _ _ (by decide) [],
   messageCreate_self_does_nothing _ _ _ (by decide) [],
   messageCreate_self_does_nothing _ _ _ (by decide) []⟩

/-- C3, at the failing input: with `UUID_LIST` empty, `strings.Split` yields the
one-element list of the empty string, so a `!status` of another user fetches
`/api/client/servers/` and `/api/client/servers//resources` for the empty
UUID; here the panel answers both with an empty body and the handler panics
on `Data[0]`. -/
theorem status_with_empty_uuid_list_fetches :
    Split "" ',' = [""] ∧
    messageCreate (exampleWorld "" remoteA) exampleSession (messageFromAlice "!status") [] =
      ⟨[.logPrintln "!status - bot",
        .clientDo "http://panel/api/client/servers/" "Bearer secret",
        .logPrintln "unexpected end of JSON input",
        .clientDo "http://panel/api/client/servers//resources" "Bearer secret",
        .logPrintln "unexpected end of JSON input"],
       .panic "runtime error: index out of range [0] with length 0"⟩ := by
  decide

/-- C4, at the failing input: with `UUID_LIST` = `B,A` and both bodies of `B`
malformed, the handler panics on `Data[0]` of the zero-valued record of `B`
and nothing is sent for `A`; with `A,B` the report of `A` is sent before the
panic. -/
theorem status_decode_failure_stops_the_loop :
    messageCreate (exampleWorld "B,A" remoteMalformedB) exampleSession
        (messageFromAlice "!status") [] =
      ⟨[.logPrintln "!status - bot",
        .clientDo "http://panel/api/client/servers/B" "Bearer secret",
        .logPrintln malformedErr,
        .clientDo "http://panel/api/client/servers/B/resources" "Bearer secret",
        .logPrintln malformedErr],
       .panic "runtime error: index out of range [0] with length 0"⟩ ∧
    messageCreate (exampleWorld "A,B" remoteMalformedB) exampleSession
        (messageFromAlice "!status") [] =
      ⟨[.logPrintln "!status - bot",
        .clientDo "http://panel/api/client/servers/A" "Bearer secret",
        .clientDo "http://panel/api/client/servers/A/resources" "Bearer secret",
        .channelMessageSend "general" reportA,
        .clientDo "http://panel/api/client/servers/B" "Bearer secret",
        .logPrintln malformedErr,
        .clientDo "http://panel/api/client/servers/B/resources" "Bearer secret",
        .logPrintln malformedErr],
       .panic "runtime error: index out of range [0] with length 0"⟩ := by
  decide

/-- C5: for a `!status` of another user, when for every configured UUID both
requests are built and answered with a response and the decoded server record
has at least one allocation, the handler returns normally and its fetches
are, in order, `GET API_URL/api/client/servers/UUID` then
`GET API_URL/api/client/servers/UUID/resources` for each UUID of the list,
each with `Bearer API_KEY`: two per UUID, `2 * n` in all. -/
theorem status_fetches_one_pair_per_uuid (w : World) (s : Session) (m : MessageCreate)
    (hself : m.Author.ID ≠ s.State.User.ID) (hstatus : m.Content = "!status")
    (hserver : ∀ UUID ∈ Split (w.Getenv "UUID_LIST") ',',
      w.NewRequest (w.Getenv "API_URL" ++ "/api/client/servers/" ++ UUID) = none ∧
      ∀ past, ∃ r err,
        w.Do past (w.Getenv "API_URL" ++ "/api/client/servers/" ++ UUID)
          ("Bearer " ++ w.Getenv "API_KEY") = (some r, err) ∧
        (w.UnmarshalServer r.Body).1.Attributes.Relationships.Allocations.Data ≠ [])
    (hresources : ∀ UUID ∈ Split (w.Getenv "UUID_LIST") ',',
      w.NewRequest (w.Getenv "API_URL" ++ "/api/client/servers/" ++ UUID ++ "/resources") = none ∧
      ∀ past, ∃ r err,
        w.Do past (w.Getenv "API_URL" ++ "/api/client/servers/" ++ UUID ++ "/resources")
          ("Bearer " ++ w.Getenv "API_KEY") = (some r, err))
    (tr : List Event) :
    (messageCreate w s m tr).out = .ret () ∧
    fetches (messageCreate w s m tr).trace =
      fetches tr ++ (Split (w.Getenv "UUID_LIST") ',').flatMap (fun UUID =>
        [.clientDo (w.Getenv "API_URL" ++ "/api/client/servers/" ++ UUID)
            ("Bearer " ++ w.Getenv "API_KEY"),
         .clientDo (w.Getenv "API_URL" ++ "/api/client/servers/" ++ UUID ++ "/resources")
            ("Bearer " ++ w.Getenv "API_KEY")]) ∧
    (fetches (messageCreate w s m tr).trace).length =
      (fetches tr).length + 2 * (Split (w.Getenv "UUID_LIST") ',').length := by
  have hloop := statusLoop_fetches w m (Split (w.Getenv "UUID_LIST") ',') hserver hresources
    (tr ++ [.logPrintln ("!status - " ++ s.State.User.ID)])
  have hmap : m.Content ≠ "!map" := by rw [hstatus]; decide
  have hhelp : m.Content ≠ "!help" := by rw [hstatus]; decide
  have hrun : messageCreate w s m tr =
      statusLoop w (initEnvVars w) m (Split (w.Getenv "UUID_LIST") ',')
        (tr ++ [.logPrintln ("!status - " ++ s.State.User.ID)]) := by
    rw [messageCreate_nonself w s m hself, mapGet_UUID_LIST]
    simp only [statusBlock, hstatus, if_true, Prog.bind, bind_run, emit_run]
    cases hl : statusLoop w (initEnvVars w) m (Split (w.Getenv "UUID_LIST") ',')
        (tr ++ [.logPrintln ("!status - " ++ s.State.User.ID)]) with
    | mk t o =>
      cases o with
      | ret u => simp [mapBlock_skip s m hmap, helpBlock_skip s m hhelp]
      | panic msg => simp
  rw [hrun]
  refine ⟨hloop.1, ?_, ?_⟩
  · rw [hloop.2]; simp; rfl
  · rw [hloop.2, List.length_append, length_flatMap_fetchPair]; simp

/-- C5 at `UUID_LIST` = `A,B` with both servers served in full: four fetches,
the pair of `A` before the pair of `B`. -/
theorem status_fetches_one_pair_per_uuid_witness :
    (messageCreate (exampleWorld "A,B" remoteAB) exampleSession
        (messageFromAlice "!status") []).out = .ret () ∧
    fetches (messageCreate (exampleWorld "A,B" remoteAB) exampleSession
        (messageFromAlice "!status") []).trace =
      [.clientDo "http://panel/api/client/servers/A" "Bearer secret",
       .clientDo "http://panel/api/client/servers/A/resources" "Bearer secret",
       .clientDo "http://panel/api/client/servers/B" "Bearer secret",
       .clientDo "http://panel/api/client/servers/B/resources" "Bearer secret"] ∧
    (fetches (messageCreate (exampleWorld "A,B" remoteAB) exampleSession
        (messageFromAlice "!status") []).trace).length = 0 + 2 * 2 :=
  status_fetches_one_pair_per_uuid (exampleWorld "A,B" remoteAB) exampleSession
    (messageFromAlice "!status") (by decide) rfl
    (by
      intro UUID hmem
      have hcases : UUID = "A" ∨ UUID = "B" := by
        have hsplit : Split ((exampleWorld "A,B" remoteAB).Getenv "UUID_LIST") ',' = ["A", "B"] := by
          decide
        rw [hsplit] at hmem
        simpa using hmem
      rcases hcases with h | h <;> subst h
      · exact ⟨rfl, fun _ => ⟨⟨serverBodyA, none⟩, none, rfl, by decide⟩⟩
      · exact ⟨rfl, fun _ => ⟨⟨serverBodyB, none⟩, none, rfl, by decide⟩⟩)
    (by
      intro UUID hmem
      have hcases : UUID = "A" ∨ UUID = "B" := by
        have hsplit : Split ((exampleWorld "A,B" remoteAB).Getenv "UUID_LIST") ',' = ["A", "B"] := by
          decide
        rw [hsplit] at hmem
        simpa using hmem
      rcases hcases with h | h <;> subst h
      · exact ⟨rfl, fun _ => ⟨⟨stateBodyA, none⟩, none, rfl⟩⟩
      · exact ⟨rfl, fun _ => ⟨⟨stateBodyA, none⟩, none, rfl⟩⟩)
    []

/-- C6: in the status report the memory and the disk usage are the byte
counts divided by 1048576 with the remainder dropped. For bytes
`1048576 * k + r` with the remainder `r` on the side of zero (`r = 0` is an
exact multiple, for every integer `k`) the rendered usage is exactly `k`
followed by `MB`; the same holds for the disk with `j` and `q`. -/
theorem statusText_usage_in_truncated_mebibytes (w : World) (Server : Server) (State : State)
    (Data0 : Allocation) (rest : List Allocation) (k r j q : Int)
    (hdata : Server.Attributes.Relationships.Allocations.Data = Data0 :: rest)
    (hmem : State.ResourceAttributes.Resources.MemoryBytes = 1048576 * k + r)
    (hr : (0 ≤ k ∧ 0 ≤ r ∧ r < 1048576) ∨ (k ≤ 0 ∧ -1048576 < r ∧ r ≤ 0))
    (hdisk : State.ResourceAttributes.Resources.DiskBytes = 1048576 * j + q)
    (hq : (0 ≤ j ∧ 0 ≤ q ∧ q < 1048576) ∨ (j ≤ 0 ∧ -1048576 < q ∧ q ≤ 0)) :
    statusText w Server State =
      .ret (">>> **" ++ Server.Attributes.Name ++ "** \n" ++
        "_" ++ Server.Attributes.Description ++ "_\n" ++
        "```\n" ++
        "Server: " ++ Data0.Attributes.Hostname ++ ":" ++ Itoa Data0.Attributes.Port ++ "\n" ++
        "Status: " ++ State.ResourceAttributes.CurrentState ++ "\n" ++
        "Resources:\n" ++
        " * CPU:  " ++ w.FormatFloat State.ResourceAttributes.Resources.CPU ++ "%\n" ++
        " * RAM:  " ++ Itoa k ++ "MB/" ++ Itoa Server.Attributes.Limits.Memory ++ "MB\n" ++
        " * DISK: " ++ Itoa j ++ "MB/" ++ Itoa Server.Attributes.Limits.Disk ++ "MB\n" ++
        "```") := by
  simp only [statusText, hdata, hmem, hdisk, goDiv_mebibyte k r hr, goDiv_mebibyte j q hq]

/-- C6 at 1500000 bytes of memory (`1048576 * 1 + 451424`) and 3145728 bytes
of disk (`1048576 * 3`): the report shows `1MB` and `3MB`. -/
theorem statusText_usage_in_truncated_mebibytes_witness :
    statusText (exampleWorld "A" remoteA) serverA stateA =
      .ret (">>> **Alpha** \n_survival_\n```\nServer: mc.example.org:25565\nStatus: running\n" ++
        "Resources:\n * CPU:  0.00%\n * RAM:  1MB/2048MB\n * DISK: 3MB/10240MB\n```") :=
  (statusText_usage_in_truncated_mebibytes (exampleWorld "A" remoteA) serverA stateA
    ⟨⟨"mc.example.org", 25565⟩⟩ [] 1 451424 3 0 rfl (by decide) (by decide) (by decide)
    (by decide)).trans (by decide)

/-- C7: a `!map` of another user makes `messageCreate` log one line and send
exactly two replies to the channel of the message, the text starting
`Vanilla Online Map` first and the text starting `Legacy Online Map` second,
and return; the world, so the configuration, has no part in the result and
no fetch is made. -/
theorem messageCreate_map_sends_two_fixed_replies (w : World) (s : Session) (m : MessageCreate)
    (hself : m.Author.ID ≠ s.State.User.ID) (hmap : m.Content = "!map") (tr : List Event) :
    messageCreate w s m tr =
      ⟨tr ++ [.logPrintln ("!map - " ++ s.State.User.ID),
              .channelMessageSend m.ChannelID
                "Vanilla Online Map - https://map.legacy.darkwindcraft.com",
              .channelMessageSend m.ChannelID
                "Legacy Online Map - https://map.vanilla.darkwindcraft.com"],
        .ret ()⟩ := by
  rw [messageCreate_nonself w s m hself]
  have h1 : m.Content ≠ "!status" := by rw [hmap]; decide
  have h3 : m.Content ≠ "!help" := by rw [hmap]; decide
  simp [Prog.bind, statusBlock_skip, helpBlock_skip, h1, h3]
  simp [mapBlock, hmap, Prog.bind, mapReply1, mapReply2]

/-- C7 at a `!map` of `alice`, with a panel that is down and no UUID configured. -/
theorem messageCreate_map_sends_two_fixed_replies_witness :
    messageCreate (exampleWorld "" remoteDown) exampleSession (messageFromAlice "!map") [] =
      ⟨[.logPrintln "!map - bot",
        .channelMessageSend "general" "Vanilla Online Map - https://map.legacy.darkwindcraft.com",
        .channelMessageSend "general" "Legacy Online Map - https://map.vanilla.darkwindcraft.com"],
        .ret ()⟩ :=
  messageCreate_map_sends_two_fixed_replies (exampleWorld "" remoteDown) exampleSession
    (messageFromAlice "!map") (by decide) rfl []

/-- C8, refuted: the resources body of `A` is not JSON, the decoder reports
the error, and `getServerInfo` still returns a pair, with a zero-valued
`State`; the handler renders and sends the report from it. -/
theorem getServerInfo_returns_zero_state_after_decode_failure :
    (exampleUnmarshalState malformedBody).2 = some malformedErr ∧
    getServerInfo (exampleWorld "A" remoteMalformedState)
        (initEnvVars (exampleWorld "A" remoteMalformedState)) "A" [] =
      ⟨[.clientDo "http://panel/api/client/servers/A" "Bearer secret",
        .clientDo "http://panel/api/client/servers/A/resources" "Bearer secret",
        .logPrintln "invalid character 'o' in literal null (expecting 'u')"],
       .ret (serverA, State.zero)⟩ ∧
    messageCreate (exampleWorld "A" remoteMalformedState) exampleSession
        (messageFromAlice "!status") [] =
      ⟨[.logPrintln "!status - bot",
        .clientDo "http://panel/api/client/servers/A" "Bearer secret",
        .clientDo "http://panel/api/client/servers/A/resources" "Bearer secret",
        .logPrintln "invalid character 'o' in literal null (expecting 'u')",
        .channelMessageSend "general"
          (">>> **Alpha** \n_survival_\n```\nServer: mc.example.org:25565\nStatus: \n" ++
            "Resources:\n * CPU:  0.00%\n * RAM:  0MB/2048MB\n * DISK: 0MB/10240MB\n```")],
       .ret ()⟩ := by
  decide

/-- C8, amended: when both requests for a UUID are built and answered with a
response, `getServerInfo` returns normally, whatever the decoder says: it logs
each decode error as it is and returns the two records exactly as the decoder
left them. When the returned server record has an allocation, the status
loop renders the report from that pair, sends it and goes on with the next
UUID. -/
theorem getServerInfo_returns_what_the_decoder_left (w : World) (envs : StringMap)
    (UUID : String) (tr : List Event) (r1 r2 : Response) (e1 e2 : Option String)
    (hreq1 : w.NewRequest (mapGet envs "API_URL" ++ "/api/client/servers/" ++ UUID) = none)
    (hdo1 : w.Do tr (mapGet envs "API_URL" ++ "/api/client/servers/" ++ UUID)
      ("Bearer " ++ mapGet envs "API_KEY") = (some r1, e1))
    (hreq2 : w.NewRequest (mapGet envs "API_URL" ++ "/api/client/servers/" ++ UUID ++ "/resources")
      = none)
    (hdo2 : w.Do
      (tr ++ [.clientDo (mapGet envs "API_URL" ++ "/api/client/servers/" ++ UUID)
          ("Bearer " ++ mapGet envs "API_KEY")] ++ errLines e1 ++ errLines r1.readErr ++
        errLines (w.UnmarshalServer r1.Body).2)
      (mapGet envs "API_URL" ++ "/api/client/servers/" ++ UUID ++ "/resources")
      ("Bearer " ++ mapGet envs "API_KEY") = (some r2, e2)) :
    getServerInfo w envs UUID tr =
      ⟨tr ++ [.clientDo (mapGet envs "API_URL" ++ "/api/client/servers/" ++ UUID)
          ("Bearer " ++ mapGet envs "API_KEY")] ++ errLines e1 ++ errLines r1.readErr ++
        errLines (w.UnmarshalServer r1.Body).2 ++
        [.clientDo (mapGet envs "API_URL" ++ "/api/client/servers/" ++ UUID ++ "/resources")
          ("Bearer " ++ mapGet envs "API_KEY")] ++ errLines e2 ++ errLines r2.readErr ++
        errLines (w.UnmarshalState r2.Body).2,
        .ret ((w.UnmarshalServer r1.Body).1, (w.UnmarshalState r2.Body).1)⟩ ∧
    ((w.UnmarshalServer r1.Body).1.Attributes.Relationships.Allocations.Data ≠ [] →
      ∃ text, statusText w (w.UnmarshalServer r1.Body).1 (w.UnmarshalState r2.Body).1 = .ret text ∧
        ∀ (m : MessageCreate) (rest : List String),
          statusLoop w envs m (UUID :: rest) tr =
            statusLoop w envs m rest
              ((getServerInfo w envs UUID tr).trace ++ [.channelMessageSend m.ChannelID text])) := by
  have hget := getServerInfo_response w envs UUID tr r1 r2 e1 e2 hreq1 hdo1 hreq2 hdo2
  refine ⟨hget, fun halloc => ?_⟩
  obtain ⟨text, htext⟩ := statusText_of_allocation w (w.UnmarshalServer r1.Body).1
    (w.UnmarshalState r2.Body).1 halloc
  refine ⟨text, htext, fun m rest => ?_⟩
  rw [statusLoop_cons w envs m UUID rest tr _ _ _ text hget htext, hget]

/-- C8 amended, at the panel whose resources body of `A` is not JSON: the pair
returned is the record of `A` with the zero-valued state. -/
theorem getServerInfo_returns_what_the_decoder_left_witness :
    getServerInfo (exampleWorld "A" remoteMalformedState)
        (initEnvVars (exampleWorld "A" remoteMalformedState)) "A" [] =
      ⟨[.clientDo "http://panel/api/client/servers/A" "Bearer secret",
        .clientDo "http://panel/api/client/servers/A/resources" "Bearer secret",
        .logPrintln "invalid character 'o' in literal null (expecting 'u')"],
       .ret (serverA, State.zero)⟩ :=
  ((getServerInfo_returns_what_the_decoder_left (exampleWorld "A" remoteMalformedState)
    (initEnvVars (exampleWorld "A" remoteMalformedState)) "A" []
    ⟨serverBodyA, none⟩ ⟨malformedBody, none⟩ none none rfl rfl rfl rfl).1).trans (by decide)

/-- C9, at the failing input: the server document of `C` is well-formed and
its allocation list is empty; a `!status` fetches both documents, decodes
them without error and panics on `Data[0]`, and nothing is sent. -/
theorem status_with_empty_allocations_panics :
    exampleUnmarshalServer serverBodyNoAllocation = (serverNoAllocation, none) ∧
    serverNoAllocation.Attributes.Relationships.Allocations.Data = [] ∧
    messageCreate (exampleWorld "C" remoteNoAllocation) exampleSession
        (messageFromAlice "!status") [] =
      ⟨[.logPrintln "!status - bot",
        .clientDo "http://panel/api/client/servers/C" "Bearer secret",
        .clientDo "http://panel/api/client/servers/C/resources" "Bearer secret"],
       .panic "runtime error: index out of range [0] with length 0"⟩ := by
  decide

/-- C10, at the failing input: the transport call fails, without a response;
`httpGET` logs the error and then panics on the nil response instead of
returning an empty body. -/
theorem httpGET_panics_on_transport_failure :
    (exampleWorld "A" remoteDown).Do [] "http://panel/api/client/servers/A" "Bearer secret" =
      (none, some refusedErr) ∧
    httpGET (exampleWorld "A" remoteDown) "http://panel/api/client/servers/A" "secret" [] =
      ⟨[.clientDo "http://panel/api/client/servers/A" "Bearer secret", .logPrintln refusedErr],
       .panic "runtime error: invalid memory address or nil pointer dereference"⟩ := by
  decide

end DarkwindBot
